import Mathlib

/-!
DustLine — verification of the core pipeline against its specification

Shallow embedding of the DustLine core (`src/core/`): the data model
(`core/__init__.py`), the complexity analyzer (`core/complexity.py`), the
cost model (`core/cost_model.py`), the attribution Tier-2 pass
(`core/attribution.py`) and the target-resolution / provider-fetch layer
(`core/graph.py`).

Modelling conventions:
* Python `int` is modelled as `ℤ`, Python `float` as `ℚ` (the arithmetic in
  the sources is +, ×, /, comparisons; floats are idealised as exact
  rationals).  `round(x, n)` is modelled as exact round-half-to-even at the
  n-th decimal place (`pyRound` below), which is Python's rounding mode.
* Python dicts that are only iterated in insertion order are modelled as
  association lists; Python sets whose length is taken are modelled as lists
  of distinct elements.
* HTTP I/O is modelled by explicit oracles: a fetch function is a parameter,
  and a provider's successive responses are a list of `HttpOutcome`s.
* Display-only string fields (`privacy_floor_summary`, `confidence_note`,
  `minimum_case_threshold_note`) are omitted from the cost-estimate record;
  no claim refers to them.
-/

namespace DustLine

/-! Python-style rounding (round half to even, as `round(x, ndigits)`). -/

/-- Python's `round` to an integer: round half to even (banker's rounding). -/
def pyRound (x : ℚ) : ℤ :=
  let n := ⌊x⌋
  let f := x - n
  if f < 1/2 then n
  else if 1/2 < f then n + 1
  else if n % 2 = 0 then n else n + 1

/-- Python `round(x, 0)` — the result is a float with integral value. -/
def round0 (x : ℚ) : ℚ := (pyRound x : ℚ)

/-- Python `round(x, 1)`. -/
def round1 (x : ℚ) : ℚ := (pyRound (x * 10) : ℚ) / 10

/-- Python `round(x, 2)`. -/
def round2 (x : ℚ) : ℚ := (pyRound (x * 100) : ℚ) / 100

/-- Python `round(x, 4)`. -/
def round4 (x : ℚ) : ℚ := (pyRound (x * 10000) : ℚ) / 10000

/-! Data model (`core/__init__.py`). -/

/-- The `ScriptType` enum — Bitcoin output script types. -/
inductive ScriptType where
  | p2pkh
  | p2sh
  | p2wpkh
  | p2wsh
  | p2tr
  | unknown
deriving DecidableEq, Repr

/-- The `.value` string of each `ScriptType` member. -/
def ScriptType.value : ScriptType → String
  | .p2pkh => "p2pkh"
  | .p2sh => "p2sh"
  | .p2wpkh => "p2wpkh"
  | .p2wsh => "p2wsh"
  | .p2tr => "p2tr"
  | .unknown => "unknown"

/-- The `mapping` dict inside `ScriptType.from_esplora`. -/
def ESPLORA_SCRIPT_MAP : List (String × ScriptType) :=
  [("p2pkh", .p2pkh),
   ("p2sh", .p2sh),
   ("v0_p2wpkh", .p2wpkh),
   ("v0_p2wsh", .p2wsh),
   ("v1_p2tr", .p2tr)]

/-- Source `ScriptType.from_esplora`: `mapping.get(scriptpubkey_type, cls.UNKNOWN)`. -/
def ScriptType.from_esplora (scriptpubkey_type : String) : ScriptType :=
  ((ESPLORA_SCRIPT_MAP.find? (fun p => p.1 == scriptpubkey_type)).map Prod.snd).getD .unknown

/-- The `PrivacyFloor` enum — five-level classification of tracing economic viability. -/
inductive PrivacyFloor where
  | traceable
  | costly
  | expensive
  | high_floor
  | impractical
deriving DecidableEq, Repr

/-- The `TxPattern` enum — common Bitcoin transaction patterns. -/
inductive TxPattern where
  | consolidation
  | peel_chain
  | fan_out
  | coinjoin
  | simple
deriving DecidableEq, Repr

/-- The `TxInput` dataclass. -/
structure TxInput where
  prev_txid : String
  prev_vout : ℤ
  address : Option String
  value_sat : ℤ
  script_type : ScriptType
deriving DecidableEq, Repr

/-- The `TxOutput` dataclass. -/
structure TxOutput where
  address : Option String
  value_sat : ℤ
  script_type : ScriptType
  spent : Bool := false
  spending_txid : Option String := none
deriving DecidableEq, Repr

/-- The `GraphNode` dataclass (fields referenced by the analysis code;
`attributed_entities` is a dict modelled as an association list). -/
structure GraphNode where
  txid : String
  inputs : List TxInput := []
  outputs : List TxOutput := []
  fee_sat : ℤ := 0
  size_bytes : ℤ := 0
  weight : ℤ := 0
  depth : ℤ := 0
  is_coinbase : Bool := false
  rbf_signaled : Bool := false
  resolved : Bool := true
  attributed_entities : List (String × String) := []
deriving DecidableEq, Repr

/-- The `GraphEdge` dataclass. -/
structure GraphEdge where
  from_txid : String
  to_txid : String
  address : Option String
  value_sat : ℤ
  vout_index : ℤ
deriving DecidableEq, Repr

/-- The `AttributionSummary` dataclass (numeric fields used by the analyzer). -/
structure AttributionSummary where
  total_addresses : ℤ := 0
  attributed_count : ℤ := 0
  coverage_rate : ℚ := 0
deriving DecidableEq, Repr

/-- The `GraphResult` dataclass.  Its `nodes` field is a dict keyed by txid, modelled as
its list of values in insertion order; `addresses_seen` is a set modelled as
a list of distinct addresses. -/
structure GraphResult where
  root_input : String
  root_txid : String
  nodes : List GraphNode := []
  edges : List GraphEdge := []
  addresses_seen : List String := []
  max_depth_reached : ℤ := 0
  requested_max_depth : ℤ := 0
  node_limit_hit : Bool := false
  unresolved_count : ℤ := 0
  is_dormant : Bool := false
  we_addresses_queried : ℤ := 0
  we_addresses_total_unmatched : ℤ := 0
  warnings : List String := []
  attribution_summary : Option AttributionSummary := none
deriving DecidableEq, Repr

/-- The `ComplexityMetrics` dataclass, with the dataclass's default values. -/
structure ComplexityMetrics where
  node_count : ℤ
  edge_count : ℤ
  unique_addresses : ℤ
  max_depth : ℤ
  avg_branch_factor : ℚ
  max_branch_factor : ℤ
  attribution_rate : ℚ
  attributed_addresses : ℤ
  total_addresses : ℤ
  mixing_signals : ℤ
  mixing_txids : List String := []
  coinjoin_detected : Bool := false
  taproot_ratio : ℚ := 0
  unresolved_paths : ℤ := 0
  addresses_checked : ℤ := 0
  unattributed_addresses : ℤ := 0
  sources_exhausted : Bool := false
  avg_fan_in : ℚ := 1
  max_fan_in : ℤ := 1
  root_pattern : Option TxPattern := none
  root_pattern_detail : String := ""
  script_type_counts : List (String × ℤ) := []
  total_value_sat : ℤ := 0
deriving DecidableEq, Repr

/-- The `TierEstimate` dataclass. -/
structure TierEstimate where
  tier_name : String
  hourly_rate : ℚ
  tooling_overhead : ℚ
  estimated_hours_low : ℚ
  estimated_hours_high : ℚ
  total_low : ℚ
  total_high : ℚ
deriving DecidableEq, Repr

/-- The `CostEstimate` dataclass (display-only string fields omitted, see header). -/
structure CostEstimate where
  tiers : List TierEstimate
  base_hours_per_hop : ℚ
  total_hops : ℤ
  mixing_multiplier : ℚ
  branching_multiplier : ℚ
  taproot_multiplier : ℚ
  fan_in_multiplier : ℚ
  unresolved_hours : ℚ
  privacy_floor : PrivacyFloor
  confidence : String
deriving DecidableEq, Repr

/-! Cost model (`core/cost_model.py`). -/

/-- One entry of the `TIERS` table. -/
structure TierDef where
  name : String
  rate : ℚ
  tooling : ℚ
deriving DecidableEq, Repr

/-- The `TIERS` table — the three analyst tiers. -/
def TIERS : List TierDef :=
  [{ name := "Mid-level analyst", rate := 200, tooling := 0 },
   { name := "Senior specialist", rate := 450, tooling := 150 },
   { name := "Litigation expert", rate := 1000, tooling := 150 }]

/-- The `BASE_TIME_THRESHOLDS` table — base minutes per hop keyed by attribution-rate
thresholds, in descending order. -/
def BASE_TIME_THRESHOLDS : List (ℚ × ℚ) :=
  [(0.7, 12), (0.4, 45), (0.1, 180), (0.0, 480)]

def MIXING_MULTIPLIER : ℚ := 3.5
def TAPROOT_THRESHOLD : ℚ := 0.5
def TAPROOT_MULTIPLIER : ℚ := 1.4
def UNRESOLVED_HOURS_EACH : ℚ := 8

def HIGH_ESTIMATE_FACTOR : ℚ := 1.6

/-- The `FLOOR_THRESHOLDS` table — privacy-floor dollar thresholds. -/
def FLOOR_THRESHOLDS : List (ℚ × PrivacyFloor) :=
  [(500, .traceable), (5000, .costly), (50000, .expensive), (500000, .high_floor)]

/-- Source `_base_time_per_hop`: the first threshold the rate strictly exceeds wins;
falls back to the last entry's minutes. -/
def base_time_per_hop (attribution_rate : ℚ) : ℚ :=
  match BASE_TIME_THRESHOLDS.find? (fun p => decide (p.1 < attribution_rate)) with
  | some p => p.2
  | none => 480

/-- Source `_classify_floor`: the first threshold the reference cost is strictly below. -/
def classify_floor (reference_cost_usd : ℚ) : PrivacyFloor :=
  match FLOOR_THRESHOLDS.find? (fun p => decide (reference_cost_usd < p.1)) with
  | some p => p.2
  | none => .impractical

/-- Fallback tier used to model the Python list indexing `tiers[1]`
(`TIERS` has three entries, so the default is never reached). -/
def dummyTier : TierEstimate :=
  { tier_name := "", hourly_rate := 0, tooling_overhead := 0,
    estimated_hours_low := 0, estimated_hours_high := 0,
    total_low := 0, total_high := 0 }

/-- Source `compute_cost` (`core/cost_model.py`).  Mirrors the source: zero-hop
guard, base time per hop, the four multipliers, low/high hours, the per-tier
loop with its roundings, floor classification and confidence grading. -/
def compute_cost (metrics : ComplexityMetrics) : CostEstimate :=
  if metrics.max_depth = 0 ∧ metrics.node_count ≤ 1 then
    { tiers := TIERS.map (fun t =>
        { tier_name := t.name, hourly_rate := t.rate, tooling_overhead := t.tooling,
          estimated_hours_low := 0, estimated_hours_high := 0,
          total_low := 0, total_high := 0 }),
      base_hours_per_hop := 0,
      total_hops := 0,
      mixing_multiplier := 1,
      branching_multiplier := 1,
      taproot_multiplier := 1,
      fan_in_multiplier := 1,
      unresolved_hours := 0,
      privacy_floor := .traceable,
      confidence := "high" }
  else
    let base_minutes := base_time_per_hop metrics.attribution_rate
    let base_hours_per_hop := base_minutes / 60
    let mixing_mult : ℚ := if metrics.coinjoin_detected then MIXING_MULTIPLIER else 1
    let branching_mult : ℚ :=
      if metrics.avg_branch_factor > 5 then metrics.avg_branch_factor / 5 else 1
    let taproot_mult : ℚ :=
      if metrics.taproot_ratio > TAPROOT_THRESHOLD then TAPROOT_MULTIPLIER else 1
    let fan_in_mult : ℚ :=
      if metrics.avg_fan_in > 5 then metrics.avg_fan_in / 5 else 1
    let effective_mult := mixing_mult * branching_mult * taproot_mult * fan_in_mult
    let total_hops : ℤ := max metrics.max_depth 1
    let base_total := base_hours_per_hop * (total_hops : ℚ) * effective_mult
    let unresolved_hours := (metrics.unresolved_paths : ℚ) * UNRESOLVED_HOURS_EACH
    let hours_low := base_total
    let hours_high := base_total * HIGH_ESTIMATE_FACTOR + unresolved_hours
    let tiers := TIERS.map (fun t =>
      let effective_rate := t.rate + t.tooling
      { tier_name := t.name, hourly_rate := t.rate, tooling_overhead := t.tooling,
        estimated_hours_low := round1 hours_low,
        estimated_hours_high := round1 hours_high,
        total_low := round0 (hours_low * effective_rate),
        total_high := round0 (hours_high * effective_rate) })
    let senior := tiers.getD 1 dummyTier
    let reference_cost := (senior.total_low + senior.total_high) / 2
    let privacy_floor := classify_floor reference_cost
    let coverage_rate := metrics.attribution_rate
    let confidence0 : String :=
      if coverage_rate ≥ 0.7 ∧ metrics.unresolved_paths = 0 then "high"
      else if coverage_rate ≥ 0.4 then "moderate"
      else if coverage_rate ≥ 0.1 then "low"
      else "very low"
    let confidence : String :=
      if metrics.sources_exhausted = true ∧ (confidence0 = "low" ∨ confidence0 = "very low")
      then "moderate" else confidence0
    { tiers := tiers,
      base_hours_per_hop := base_hours_per_hop,
      total_hops := total_hops,
      mixing_multiplier := mixing_mult,
      branching_multiplier := round2 branching_mult,
      taproot_multiplier := taproot_mult,
      fan_in_multiplier := round2 fan_in_mult,
      unresolved_hours := unresolved_hours,
      privacy_floor := privacy_floor,
      confidence := confidence }

/-! Complexity analyzer (`core/complexity.py`). -/

/-- Constant `ALL_KNOWN_DENOMINATIONS` = Wasabi v1 ∪ Whirlpool denominations (satoshis). -/
def ALL_KNOWN_DENOMINATIONS : List ℤ :=
  [10000000, 100000, 1000000, 2500000, 5000000, 25000000, 50000000]

def MIN_EQUAL_OUTPUTS_FOR_COINJOIN : ℕ := 5

/-- The positive output values of a node — `Counter(out.value_sat for out in
outputs if out.value_sat > 0)` is this list's value histogram. -/
def positiveValues (outputs : List TxOutput) : List ℤ :=
  (outputs.filter (fun o => decide (0 < o.value_sat))).map (·.value_sat)

/-- Source `value_counts.most_common(1)[0][1]` — the largest multiplicity in the
positive-value histogram (0 when the histogram is empty). -/
def mostCommonCount (vals : List ℤ) : ℕ :=
  (vals.dedup.map (fun v => vals.count v)).foldr max 0

/-- Source `_is_coinjoin` (`core/complexity.py`): the three heuristics, guarded by
the minimum output count and the non-empty-histogram check. -/
def is_coinjoin (node : GraphNode) : Bool :=
  let outputs := node.outputs
  if outputs.length < MIN_EQUAL_OUTPUTS_FOR_COINJOIN then false
  else
    let vals := positiveValues outputs
    if vals.isEmpty then false
    else if vals.dedup.any (fun v =>
        3 ≤ vals.count v && ALL_KNOWN_DENOMINATIONS.contains v) then true
    else if MIN_EQUAL_OUTPUTS_FOR_COINJOIN ≤ mostCommonCount vals
        && decide ((1 : ℚ)/2 < (mostCommonCount vals : ℚ) / (outputs.length : ℚ)) then true
    else if 3 ≤ (vals.dedup.filter (fun v => 3 ≤ vals.count v)).length then true
    else false

/-- Source `_classify_tx_pattern`: strict-order pattern classification of a node. -/
def classify_tx_pattern (node : GraphNode) (cj : Bool) : TxPattern × String :=
  let n_in := node.inputs.length
  let n_out := node.outputs.length
  let detail := s!"{n_in}-in → {n_out}-out"
  if cj then (.coinjoin, detail)
  else if 5 ≤ n_in ∧ n_out ≤ 2 then (.consolidation, detail)
  else if n_in ≤ 2 ∧ n_out = 2 then (.peel_chain, detail)
  else if n_in ≤ 3 ∧ 5 ≤ n_out then (.fan_out, detail)
  else (.simple, detail)

/-- Source `_empty_metrics`: the explicit zero arguments; every other field keeps
the `ComplexityMetrics` dataclass default. -/
def empty_metrics : ComplexityMetrics :=
  { node_count := 0, edge_count := 0, unique_addresses := 0, max_depth := 0,
    avg_branch_factor := 0, max_branch_factor := 0, attribution_rate := 0,
    attributed_addresses := 0, total_addresses := 0, mixing_signals := 0 }

/-- Insertion-ordered dict increment, for the `script_counts` accumulation. -/
def bumpCount (m : List (String × ℤ)) (k : String) : List (String × ℤ) :=
  match m with
  | [] => [(k, 1)]
  | (k', v) :: rest => if k' = k then (k', v + 1) :: rest else (k', v) :: bumpCount rest k

/-- Source `compute_complexity` (`core/complexity.py`). -/
def compute_complexity (graph : GraphResult) : ComplexityMetrics :=
  let nodes := graph.nodes
  if nodes.isEmpty then empty_metrics
  else
    let node_count : ℤ := nodes.length
    let edge_count : ℤ := graph.edges.length
    let unique_addresses : ℤ := graph.addresses_seen.length
    let max_depth := graph.max_depth_reached
    let output_counts := (nodes.filter (·.resolved)).map (fun n => (n.outputs.length : ℤ))
    let avg_branch : ℚ :=
      if output_counts.isEmpty then 1 else (output_counts.sum : ℚ) / (output_counts.length : ℚ)
    let max_branch : ℤ := if output_counts.isEmpty then 1 else output_counts.foldr max 0
    let input_counts := (nodes.filter (fun n => n.resolved && !n.is_coinbase)).map
      (fun n => (n.inputs.length : ℤ))
    let avg_fan_in : ℚ :=
      if input_counts.isEmpty then 1 else (input_counts.sum : ℚ) / (input_counts.length : ℚ)
    let max_fan_in : ℤ := if input_counts.isEmpty then 1 else input_counts.foldr max 0
    let attributed := (nodes.flatMap (fun n => n.attributed_entities.map Prod.fst)).dedup
    let attributed_count : ℤ := attributed.length
    let total_addr : ℤ := max unique_addresses 1
    let attribution_rate : ℚ := (attributed_count : ℚ) / (total_addr : ℚ)
    let checked_unattributed : ℤ × ℤ :=
      match graph.attribution_summary with
      | some s => (s.total_addresses, s.total_addresses - s.attributed_count)
      | none => (attributed_count + graph.we_addresses_queried,
                 unique_addresses - attributed_count)
    let mixing_txids := ((nodes.filter (fun n => n.resolved && is_coinjoin n)).map (·.txid))
    let mixing_signals : ℤ := mixing_txids.length
    let coinjoin_detected : Bool := decide (0 < mixing_signals)
    let root_node := nodes.find? (fun n => n.txid == graph.root_txid)
    let root_classified : Option (TxPattern × String) :=
      match root_node with
      | some r =>
        if r.resolved then
          some (classify_tx_pattern r (coinjoin_detected && mixing_txids.contains r.txid))
        else none
      | none => none
    let all_script_types := (nodes.filter (·.resolved)).flatMap (fun n =>
      (n.inputs.filter (·.address.isSome)).map (·.script_type)
      ++ (n.outputs.filter (·.address.isSome)).map (·.script_type))
    let taproot_count : ℤ := (all_script_types.count .p2tr : ℤ)
    let taproot_ratio : ℚ :=
      if all_script_types.isEmpty then 0
      else (taproot_count : ℚ) / (all_script_types.length : ℚ)
    let script_counts := all_script_types.foldl (fun acc st => bumpCount acc st.value) []
    let unresolved : ℤ := ((nodes.filter (fun n => !n.resolved)).length : ℤ)
    let total_value : ℤ :=
      ((nodes.filter (·.resolved)).map (fun n => (n.outputs.map (·.value_sat)).sum)).sum
    let sources_exhausted : Bool :=
      decide (graph.we_addresses_total_unmatched ≤ graph.we_addresses_queried)
    { node_count := node_count,
      edge_count := edge_count,
      unique_addresses := unique_addresses,
      max_depth := max_depth,
      avg_branch_factor := round2 avg_branch,
      max_branch_factor := max_branch,
      attribution_rate := round4 attribution_rate,
      attributed_addresses := attributed_count,
      total_addresses := unique_addresses,
      mixing_signals := mixing_signals,
      mixing_txids := mixing_txids,
      coinjoin_detected := coinjoin_detected,
      taproot_ratio := round4 taproot_ratio,
      unresolved_paths := unresolved,
      addresses_checked := checked_unattributed.1,
      unattributed_addresses := checked_unattributed.2,
      sources_exhausted := sources_exhausted,
      avg_fan_in := round2 avg_fan_in,
      max_fan_in := max_fan_in,
      root_pattern := root_classified.map Prod.fst,
      root_pattern_detail := (root_classified.map Prod.snd).getD "",
      script_type_counts := script_counts,
      total_value_sat := total_value }

/-! Attribution pipeline, Tier 2 (`core/attribution.py`, `attribute_graph`). -/

def DEFAULT_WE_LIMIT : ℕ := 200

/-- The warning appended when the WalletExplorer cap trims the query list. -/
def weCapWarning (limit unmatchedTotal : ℕ) : String :=
  s!"WalletExplorer: queried {limit} of {unmatchedTotal} unattributed addresses (capped for speed). Use --thorough to check all."

/-- Result of the Tier-2 section of `attribute_graph`: which addresses were
sent to WalletExplorer, which of them matched, the warnings appended to the
graph, and the two bookkeeping counters written back to it. -/
structure Tier2Result where
  queried : List String
  matched : List String
  warnings : List String
  we_addresses_queried : ℤ
  we_addresses_total_unmatched : ℤ
deriving DecidableEq, Repr

/-- Tier 2 of `attribute_graph` (`core/attribution.py`, the
`unmatched`/`to_query` block).  `tier1` is the local-database lookup
(Tier 1's per-address outcome); `oracle` is `_query_walletexplorer`
collapsed to its returned label. -/
def tier2_walletexplorer (all_addresses : List String)
    (tier1 : String → Option String) (skip_walletexplorer : Bool)
    (we_limit : Option ℕ) (oracle : String → Option String) : Tier2Result :=
  let unmatched := all_addresses.filter (fun a => (tier1 a).isNone)
  if skip_walletexplorer then
    { queried := [], matched := [], warnings := [],
      we_addresses_queried := 0,
      we_addresses_total_unmatched := (unmatched.length : ℤ) }
  else
    let to_query := match we_limit with
      | none => unmatched
      | some l => unmatched.take l
    let warnings := match we_limit with
      | none => []
      | some l => if l < unmatched.length then [weCapWarning l unmatched.length] else []
    { queried := to_query,
      matched := to_query.filter (fun a => (oracle a).isSome),
      warnings := warnings,
      we_addresses_queried := (to_query.length : ℤ),
      we_addresses_total_unmatched := (unmatched.length : ℤ) }

/-! Target resolution (`core/graph.py`). -/

/-- One character of `[0-9a-fA-F]`. -/
def isHexChar (c : Char) : Bool :=
  c.isDigit || ('a' ≤ c && c ≤ 'f') || ('A' ≤ c && c ≤ 'F')

/-- Pattern `TXID_PATTERN = ^[0-9a-fA-F]{64}$`. -/
def txidMatch (s : String) : Bool :=
  s.data.length = 64 && s.data.all isHexChar

/-- The `[a-zA-Z0-9]{25,62}` tail of the address pattern. -/
def addressTail (rest : List Char) : Bool :=
  25 ≤ rest.length && rest.length ≤ 62 && rest.all Char.isAlphanum

/-- Pattern `ADDRESS_PATTERN = ^(1|3|bc1)[a-zA-Z0-9]{25,62}$`. -/
def addressMatch (s : String) : Bool :=
  match s.data with
  | '1' :: rest => addressTail rest
  | '3' :: rest => addressTail rest
  | 'b' :: 'c' :: '1' :: rest => addressTail rest
  | _ => false

/-- Python `str.strip()`. -/
def pyStrip (s : String) : String :=
  ⟨((s.data.dropWhile Char.isWhitespace).reverse.dropWhile Char.isWhitespace).reverse⟩

/-- The two provider endpoints used during resolution, collapsed over the
mempool→Blockstream fallback: `fetchTx` models `_fetch_tx_with_fallback`
(`some` = a transaction record, `none` = not-found after both providers) and
`addrTxs` models the `/address/{addr}/txs` response, already projected to
its list of txids (the `[tx["txid"] for tx in txs]` extraction). -/
structure Esplora where
  fetchTx : String → Option ℕ
  addrTxs : String → List String

/-- Source `_fetch_address_txids`: truncates the response to `limit` entries. -/
def fetch_address_txids (api : Esplora) (address : String) (limit : ℕ) : List String :=
  (api.addrTxs address).take limit

/-- Source `_resolve_target` (`core/graph.py`). -/
def resolve_target (api : Esplora) (target : String) : Option String :=
  let t := pyStrip target
  if txidMatch t then
    if (api.fetchTx t).isSome then some t else none
  else if addressMatch t then
    (fetch_address_txids api t 25).head?
  else none

/-- The part of `async_bfs`'s result determined by target resolution:
original input, resolved root txid, and the warnings list at entry. -/
structure BfsInit where
  root_input : String
  root_txid : String
  warnings : List String
deriving DecidableEq, Repr

/-- The head of `async_bfs`: resolve the target; on failure return a graph
with empty `root_txid` and the single "Could not resolve" warning. -/
def bfs_resolve (api : Esplora) (target : String) : BfsInit :=
  match resolve_target api target with
  | none =>
    { root_input := target, root_txid := "",
      warnings := [s!"Could not resolve target: {target}"] }
  | some r => { root_input := target, root_txid := r, warnings := [] }

/-! Provider fetches and the 429 path (`core/graph.py`). -/

/-- Outcome of one HTTP GET: a response with a status code and an abstract
JSON payload, or a raised transport/timeout error. -/
inductive HttpOutcome where
  | resp (status : ℕ) (payload : ℕ)
  | err
deriving DecidableEq, Repr

/-- Predicate for `httpx.Response.raise_for_status`: it does not raise exactly on 2xx. -/
def is2xx (status : ℕ) : Bool := 200 ≤ status && status < 300

/-- Observable behaviour of one fetch call: the value returned, how many
HTTP requests it issued, and the durations (seconds) it slept. -/
structure FetchResult where
  value : Option ℕ
  requests : ℕ
  sleeps : List ℚ
deriving DecidableEq, Repr

/-- Source `_fetch_tx` (`core/graph.py`) against one provider, driven by the
provider's successive outcomes (missing outcomes default to an error):
404 → not-found; 429 → sleep 2 s and re-issue the same request once, the
retry's status then decides; any exception → not-found. -/
def fetch_tx (outcomes : List HttpOutcome) : FetchResult :=
  match outcomes.getD 0 .err with
  | .err => { value := none, requests := 1, sleeps := [] }
  | .resp status payload =>
    if status = 404 then { value := none, requests := 1, sleeps := [] }
    else if status = 429 then
      match outcomes.getD 1 .err with
      | .err => { value := none, requests := 2, sleeps := [2] }
      | .resp s2 p2 =>
        if is2xx s2 then { value := some p2, requests := 2, sleeps := [2] }
        else { value := none, requests := 2, sleeps := [2] }
    else if is2xx status then { value := some payload, requests := 1, sleeps := [] }
    else { value := none, requests := 1, sleeps := [] }

/-- Source `_fetch_outspends` (`core/graph.py`): 404 → not-found, otherwise
`raise_for_status` + json; every exception → not-found.  There is no 429
branch — a 429 raises in `raise_for_status` and is swallowed. -/
def fetch_outspends (outcomes : List HttpOutcome) : FetchResult :=
  match outcomes.getD 0 .err with
  | .err => { value := none, requests := 1, sleeps := [] }
  | .resp status payload =>
    if status = 404 then { value := none, requests := 1, sleeps := [] }
    else if is2xx status then { value := some payload, requests := 1, sleeps := [] }
    else { value := none, requests := 1, sleeps := [] }

/-! Specification-side definitions, transcribed from the spec's wording, to
be compared with the source-side definitions above. -/

/-- Base minutes per hop as the spec states it: 12, 45, 180 or 480 minutes
according to attribution rate `> 0.7`, `> 0.4`, `> 0.1`, otherwise, first
match wins. -/
def specBaseMinutes (r : ℚ) : ℚ :=
  if r > 0.7 then 12 else if r > 0.4 then 45 else if r > 0.1 then 180 else 480

/-- Low hours estimate as the spec states it:
`base_hours_per_hop × total_hops × (mixing × branching × taproot × fan_in)`. -/
def specHoursLow (m : ComplexityMetrics) : ℚ :=
  (specBaseMinutes m.attribution_rate / 60) * ((max m.max_depth 1 : ℤ) : ℚ)
    * ((if m.coinjoin_detected then (3.5 : ℚ) else 1)
       * (if m.avg_branch_factor > 5 then m.avg_branch_factor / 5 else 1)
       * (if m.taproot_ratio > (0.5 : ℚ) then (1.4 : ℚ) else 1)
       * (if m.avg_fan_in > 5 then m.avg_fan_in / 5 else 1))

/-- High hours estimate as the spec states it:
`hours_low × 1.6 + unresolved_paths × 8`. -/
def specHoursHigh (m : ComplexityMetrics) : ℚ :=
  specHoursLow m * 1.6 + (m.unresolved_paths : ℚ) * 8

/-- One tier estimate as the (amended) spec states it: dollar totals are
`(rate + tooling) × hours` computed on the unrounded hours, hours rounded to
one decimal and totals to whole dollars. -/
def specTier (name : String) (rate tooling : ℚ) (m : ComplexityMetrics) : TierEstimate :=
  { tier_name := name, hourly_rate := rate, tooling_overhead := tooling,
    estimated_hours_low := round1 (specHoursLow m),
    estimated_hours_high := round1 (specHoursHigh m),
    total_low := round0 (specHoursLow m * (rate + tooling)),
    total_high := round0 (specHoursHigh m * (rate + tooling)) }

/-- Confidence grade as the spec states it, including the
sources-exhausted promotion. -/
def specConfidence (m : ComplexityMetrics) : String :=
  let grade : String :=
    if m.attribution_rate ≥ 0.7 ∧ m.unresolved_paths = 0 then "high"
    else if m.attribution_rate ≥ 0.4 then "moderate"
    else if m.attribution_rate ≥ 0.1 then "low"
    else "very low"
  if m.sources_exhausted = true ∧ (grade = "low" ∨ grade = "very low") then "moderate"
  else grade

/-! Helper lemmas. -/

/-- Rounding returns the floor or the floor plus one. -/
theorem pyRound_floor_cases (x : ℚ) : pyRound x = ⌊x⌋ ∨ pyRound x = ⌊x⌋ + 1 := by
  simp only [pyRound]
  split_ifs <;> simp

/-- Round-half-to-even is monotone. -/
theorem pyRound_mono {x y : ℚ} (h : x ≤ y) : pyRound x ≤ pyRound y := by
  have hf : ⌊x⌋ ≤ ⌊y⌋ := Int.floor_le_floor h
  rcases lt_or_eq_of_le hf with hlt | heq
  · have h1 : pyRound x ≤ ⌊x⌋ + 1 := by
      simp only [pyRound]; split_ifs <;> omega
    have h2 : ⌊y⌋ ≤ pyRound y := by
      simp only [pyRound]; split_ifs <;> omega
    omega
  · have hxy : x - (⌊x⌋ : ℚ) ≤ y - (⌊x⌋ : ℚ) := by linarith
    simp only [pyRound]
    rw [← heq]
    split_ifs <;> first | omega | (exfalso; linarith)

theorem round1_mono {x y : ℚ} (h : x ≤ y) : round1 x ≤ round1 y := by
  unfold round1
  have : (pyRound (x * 10) : ℚ) ≤ (pyRound (y * 10) : ℚ) :=
    Int.cast_le.mpr (pyRound_mono (by linarith))
  linarith

theorem round0_mono {x y : ℚ} (h : x ≤ y) : round0 x ≤ round0 y :=
  Int.cast_le.mpr (pyRound_mono h)

/-- Evaluation rule: a value strictly below the halfway point rounds down. -/
theorem pyRound_eq_low (x : ℚ) (n : ℤ) (h1 : (n : ℚ) ≤ x) (h2 : x < (n : ℚ) + 1/2) :
    pyRound x = n := by
  have hfl : ⌊x⌋ = n := Int.floor_eq_iff.mpr ⟨h1, by linarith⟩
  simp only [pyRound, hfl]
  rw [if_pos (by rw [hfl] at *; linarith)]

/-- Evaluation rule: a value strictly above the halfway point rounds up. -/
theorem pyRound_eq_high (x : ℚ) (n : ℤ) (h1 : (n : ℚ) + 1/2 < x) (h2 : x < (n : ℚ) + 1) :
    pyRound x = n + 1 := by
  have hfl : ⌊x⌋ = n := Int.floor_eq_iff.mpr ⟨by linarith, by linarith⟩
  simp only [pyRound, hfl]
  rw [if_neg (by linarith), if_pos (by linarith)]

/-- The source's threshold walk agrees with the spec's picture of it. -/
theorem base_time_eq (r : ℚ) : base_time_per_hop r = specBaseMinutes r := by
  unfold base_time_per_hop specBaseMinutes BASE_TIME_THRESHOLDS
  by_cases h1 : (0.7 : ℚ) < r <;> by_cases h2 : (0.4 : ℚ) < r <;>
    by_cases h3 : (0.1 : ℚ) < r <;> by_cases h4 : (0.0 : ℚ) < r <;>
    simp [List.find?, h1, h2, h3, h4, gt_iff_lt]

/-- The non-short-circuit branch of `compute_cost` computes the spec's
formulas (with the source's roundings): total hops, base hours per hop, and
the three tier estimates. -/
theorem cost_tiers_spec (m : ComplexityMetrics)
    (h : ¬(m.max_depth = 0 ∧ m.node_count ≤ 1)) :
    (compute_cost m).total_hops = max m.max_depth 1
  ∧ (compute_cost m).base_hours_per_hop = specBaseMinutes m.attribution_rate / 60
  ∧ (compute_cost m).tiers =
      [specTier "Mid-level analyst" 200 0 m,
       specTier "Senior specialist" 450 150 m,
       specTier "Litigation expert" 1000 150 m] := by
  simp only [compute_cost, if_neg h, TIERS, List.map, specTier, specHoursLow, specHoursHigh,
    MIXING_MULTIPLIER, TAPROOT_THRESHOLD, TAPROOT_MULTIPLIER, UNRESOLVED_HOURS_EACH,
    HIGH_ESTIMATE_FACTOR, base_time_eq]
  norm_num

/-! Concrete inputs used by counterexamples and witnesses. -/

/-- Metrics with one hop, attribution rate 0.5 and average branch factor 5.5
(so hours-low is 45/60 × 1 × 1.1 = 0.825, which the source rounds to 0.8). -/
def mBranch : ComplexityMetrics :=
  { node_count := 2, edge_count := 1, unique_addresses := 4, max_depth := 1,
    avg_branch_factor := 5.5, max_branch_factor := 6, attribution_rate := 0.5,
    attributed_addresses := 2, total_addresses := 4, mixing_signals := 0 }

/-- Metrics taking the zero-hop short-circuit. -/
def mShort : ComplexityMetrics :=
  { node_count := 1, edge_count := 0, unique_addresses := 2, max_depth := 0,
    avg_branch_factor := 1, max_branch_factor := 1, attribution_rate := 0,
    attributed_addresses := 0, total_addresses := 2, mixing_signals := 0 }

/-- Metrics for the sources-exhausted promotion scenario: attribution rate
0.05, no unresolved paths, sources exhausted. -/
def mPromo : ComplexityMetrics :=
  { node_count := 2, edge_count := 1, unique_addresses := 20, max_depth := 1,
    avg_branch_factor := 1, max_branch_factor := 1, attribution_rate := 0.05,
    attributed_addresses := 1, total_addresses := 20, mixing_signals := 0,
    sources_exhausted := true }

/-! Claim C1 — cost formulas of the non-short-circuit branch. -/

/-- C1 (counterexample): at `mBranch` the spec formula gives hours-low
0.825 = 33/40, but `compute_cost` returns 0.8 = 4/5 for every tier's
`estimated_hours_low` — the claim's exact formula ignores the source's
rounding to one decimal. -/
theorem c1_cost_formula_counterexample :
    specHoursLow mBranch = 33/40
  ∧ ((compute_cost mBranch).tiers.getD 0 dummyTier).estimated_hours_low = 4/5
  ∧ ((compute_cost mBranch).tiers.getD 0 dummyTier).estimated_hours_low
      ≠ specHoursLow mBranch := by
  have hlow : specHoursLow mBranch = 33/40 := by
    norm_num [specHoursLow, specBaseMinutes, mBranch]
  have htiers := (cost_tiers_spec mBranch (by decide)).2.2
  have harg : (33 : ℚ)/40 * 10 = 33/4 := by norm_num
  have hround : round1 (specHoursLow mBranch) = 4/5 := by
    rw [hlow, round1, harg, pyRound_eq_low (33/4) 8 (by norm_num) (by norm_num)]
    norm_num
  have hfst : (compute_cost mBranch).tiers.getD 0 dummyTier
      = specTier "Mid-level analyst" 200 0 mBranch := by
    rw [htiers]; rfl
  refine ⟨hlow, ?_, ?_⟩
  · rw [hfst]
    simp only [specTier]
    exact hround
  · rw [hfst]
    simp only [specTier]
    rw [hround, hlow]
    norm_num

/-- C1 (amended): outside the zero-hop short-circuit, `compute_cost` returns
`total_hops = max(max_depth, 1)`, `base_hours_per_hop` as the 12/45/180/480
minute schedule over 60, and the three tiers Mid-level \$200/\$0,
Senior \$450/\$150, Expert \$1000/\$150, whose hours are the spec's
`hours_low`/`hours_high` formulas rounded to one decimal and whose dollar
totals are `(rate + tooling) × hours` (unrounded hours) rounded to whole
dollars. -/
theorem c1_cost_formula (m : ComplexityMetrics)
    (h : ¬(m.max_depth = 0 ∧ m.node_count ≤ 1)) :
    (compute_cost m).total_hops = max m.max_depth 1
  ∧ (compute_cost m).base_hours_per_hop = specBaseMinutes m.attribution_rate / 60
  ∧ (compute_cost m).tiers =
      [specTier "Mid-level analyst" 200 0 m,
       specTier "Senior specialist" 450 150 m,
       specTier "Litigation expert" 1000 150 m] :=
  cost_tiers_spec m h

/-- C1 (witness): the amended formula evaluated at `mBranch`. -/
theorem c1_cost_formula_witness :
    (¬(mBranch.max_depth = 0 ∧ mBranch.node_count ≤ 1))
  ∧ ((compute_cost mBranch).total_hops = max mBranch.max_depth 1
     ∧ (compute_cost mBranch).base_hours_per_hop = specBaseMinutes mBranch.attribution_rate / 60
     ∧ (compute_cost mBranch).tiers =
        [specTier "Mid-level analyst" 200 0 mBranch,
         specTier "Senior specialist" 450 150 mBranch,
         specTier "Litigation expert" 1000 150 mBranch]) :=
  ⟨by decide, c1_cost_formula mBranch (by decide)⟩

/-! Claim C3 — the zero-hop short-circuit. -/

/-- C3: with `max_depth = 0` and `node_count ≤ 1`, `compute_cost` returns
all-zero tiers, unit multipliers, zero base hours / hops / unresolved hours,
floor traceable and confidence high. -/
theorem c3_zero_hop_short_circuit (m : ComplexityMetrics)
    (h : m.max_depth = 0 ∧ m.node_count ≤ 1) :
    (compute_cost m).tiers =
      [{ tier_name := "Mid-level analyst", hourly_rate := 200, tooling_overhead := 0,
         estimated_hours_low := 0, estimated_hours_high := 0, total_low := 0, total_high := 0 },
       { tier_name := "Senior specialist", hourly_rate := 450, tooling_overhead := 150,
         estimated_hours_low := 0, estimated_hours_high := 0, total_low := 0, total_high := 0 },
       { tier_name := "Litigation expert", hourly_rate := 1000, tooling_overhead := 150,
         estimated_hours_low := 0, estimated_hours_high := 0, total_low := 0, total_high := 0 }]
  ∧ (compute_cost m).base_hours_per_hop = 0
  ∧ (compute_cost m).total_hops = 0
  ∧ (compute_cost m).mixing_multiplier = 1
  ∧ (compute_cost m).branching_multiplier = 1
  ∧ (compute_cost m).taproot_multiplier = 1
  ∧ (compute_cost m).fan_in_multiplier = 1
  ∧ (compute_cost m).unresolved_hours = 0
  ∧ (compute_cost m).privacy_floor = PrivacyFloor.traceable
  ∧ (compute_cost m).confidence = "high" := by
  simp [compute_cost, if_pos h, TIERS]

/-- C3 (witness): the short-circuit at `mShort`. -/
theorem c3_zero_hop_witness :
    (mShort.max_depth = 0 ∧ mShort.node_count ≤ 1)
  ∧ ((compute_cost mShort).privacy_floor = PrivacyFloor.traceable
     ∧ (compute_cost mShort).confidence = "high") :=
  ⟨by decide,
   (c3_zero_hop_short_circuit mShort (by decide)).2.2.2.2.2.2.2.2⟩

/-! Claim C4 — confidence grading and the sources-exhausted promotion. -/

/-- C4: outside the zero-hop short-circuit, the returned confidence equals
the spec's grading: high iff rate ≥ 0.7 and no unresolved paths, else
moderate iff rate ≥ 0.4, else low iff rate ≥ 0.1, else very low, with low
and very low promoted to moderate when sources are exhausted. -/
theorem c4_confidence_grading (m : ComplexityMetrics)
    (h : ¬(m.max_depth = 0 ∧ m.node_count ≤ 1)) :
    (compute_cost m).confidence = specConfidence m := by
  simp only [compute_cost, if_neg h, specConfidence]

/-- C4 (witness): attribution rate 0.05, no unresolved paths and
`sources_exhausted = true` yield confidence "moderate". -/
theorem c4_confidence_witness :
    (¬(mPromo.max_depth = 0 ∧ mPromo.node_count ≤ 1))
  ∧ (compute_cost mPromo).confidence = "moderate" :=
  ⟨by decide, (c4_confidence_grading mPromo (by decide)).trans (by
    norm_num [specConfidence, mPromo])⟩

/-! Claim C9 — the script-type mapping. -/

/-- C9: the provider-tag mapping sends the five known tags to five distinct
variants and every other string to `unknown`. -/
theorem c9_script_type_mapping :
    (ScriptType.from_esplora "p2pkh" = ScriptType.p2pkh
     ∧ ScriptType.from_esplora "p2sh" = ScriptType.p2sh
     ∧ ScriptType.from_esplora "v0_p2wpkh" = ScriptType.p2wpkh
     ∧ ScriptType.from_esplora "v0_p2wsh" = ScriptType.p2wsh
     ∧ ScriptType.from_esplora "v1_p2tr" = ScriptType.p2tr)
  ∧ List.Pairwise (fun a b => a ≠ b)
      [ScriptType.p2pkh, ScriptType.p2sh, ScriptType.p2wpkh,
       ScriptType.p2wsh, ScriptType.p2tr]
  ∧ ∀ s : String,
      s ∉ ["p2pkh", "p2sh", "v0_p2wpkh", "v0_p2wsh", "v1_p2tr"] →
      ScriptType.from_esplora s = ScriptType.unknown := by
  refine ⟨by decide, by decide, ?_⟩
  intro s hs
  simp only [List.mem_cons, List.not_mem_nil, or_false, not_or] at hs
  obtain ⟨h1, h2, h3, h4, h5⟩ := hs
  have e1 : ("p2pkh" == s) = false := beq_eq_false_iff_ne.mpr (Ne.symm h1)
  have e2 : ("p2sh" == s) = false := beq_eq_false_iff_ne.mpr (Ne.symm h2)
  have e3 : ("v0_p2wpkh" == s) = false := beq_eq_false_iff_ne.mpr (Ne.symm h3)
  have e4 : ("v0_p2wsh" == s) = false := beq_eq_false_iff_ne.mpr (Ne.symm h4)
  have e5 : ("v1_p2tr" == s) = false := beq_eq_false_iff_ne.mpr (Ne.symm h5)
  simp [ScriptType.from_esplora, ESPLORA_SCRIPT_MAP, List.find?, e1, e2, e3, e4, e5]

/-- C9 (witness): an unknown tag maps to the unknown variant. -/
theorem c9_script_type_mapping_witness :
    ("bc1q" ∉ ["p2pkh", "p2sh", "v0_p2wpkh", "v0_p2wsh", "v1_p2tr"])
  ∧ ScriptType.from_esplora "bc1q" = ScriptType.unknown :=
  ⟨by decide, c9_script_type_mapping.2.2 "bc1q" (by decide)⟩

/-! Claim C6 — HTTP 429 handling of the provider fetches. -/

/-- Result of the one retry the transaction fetch performs after a 429:
the retried request's payload on a 2xx, otherwise not-found. -/
def retryValue : HttpOutcome → Option ℕ
  | .err => none
  | .resp status payload => if is2xx status then some payload else none

/-- C6 (counterexample): on the trace "429 then 200", the transaction fetch
sleeps 2 s, retries and succeeds, but the outspends fetch performs a single
request, never sleeps and returns not-found — it has no retry. -/
theorem c6_outspends_429_counterexample :
    fetch_tx [HttpOutcome.resp 429 0, HttpOutcome.resp 200 7]
      = { value := some 7, requests := 2, sleeps := [2] }
  ∧ fetch_outspends [HttpOutcome.resp 429 0, HttpOutcome.resp 200 7]
      = { value := none, requests := 1, sleeps := [] } := by
  constructor <;> rfl

/-- C6 (amended): a 429 makes the transaction fetch sleep 2 s and retry the
request exactly once, the retry's outcome deciding the result (failure →
not-found); the outspends fetch treats a 429 as an immediate fetch failure
with no sleep and no retry. -/
theorem c6_429_handling (payload : ℕ) (rest : List HttpOutcome) :
    fetch_tx (HttpOutcome.resp 429 payload :: rest)
      = { value := retryValue (rest.getD 0 .err), requests := 2, sleeps := [2] }
  ∧ fetch_outspends (HttpOutcome.resp 429 payload :: rest)
      = { value := none, requests := 1, sleeps := [] } := by
  constructor
  · rcases rest with _ | ⟨o2, rest2⟩
    · rfl
    · cases o2 with
      | err => rfl
      | resp s2 p2 => cases hb : is2xx s2 <;> simp [fetch_tx, retryValue, hb]
  · rfl

/-! Claim C7 — the WalletExplorer cap of attribution Tier 2. -/

/-- C7 (counterexample): with the default cap 200 and a single unmatched
address, only that one address is queried (not 200) and no warning is
appended, though the claim requires one whenever a cap is set. -/
theorem c7_cap_counterexample :
    (tier2_walletexplorer ["a1"] (fun _ => none) false (some DEFAULT_WE_LIMIT)
        (fun _ => none)).warnings = []
  ∧ (tier2_walletexplorer ["a1"] (fun _ => none) false (some DEFAULT_WE_LIMIT)
        (fun _ => none)).we_addresses_queried = 1
  ∧ (1 : ℤ) ≠ (DEFAULT_WE_LIMIT : ℤ) := by
  refine ⟨rfl, rfl, by decide⟩

/-- C7 (amended): when Tier 2 is not skipped, with `unmatched` the addresses
Tier 1 left unresolved: under a cap `l` the first `min(l, |unmatched|)`
unmatched addresses are queried and the warning naming `l` and `|unmatched|`
is appended exactly when `|unmatched| > l`; with no cap all unmatched
addresses are queried and no warning is appended; in both cases
`we_addresses_queried` is the number queried and
`we_addresses_total_unmatched` is `|unmatched|`. -/
theorem c7_cap_behaviour (all : List String) (tier1 : String → Option String)
    (oracle : String → Option String) (l : ℕ) :
    (tier2_walletexplorer all tier1 false (some l) oracle).queried
        = (all.filter (fun a => (tier1 a).isNone)).take l
  ∧ (tier2_walletexplorer all tier1 false (some l) oracle).warnings
        = (if l < (all.filter (fun a => (tier1 a).isNone)).length
           then [weCapWarning l (all.filter (fun a => (tier1 a).isNone)).length]
           else [])
  ∧ (tier2_walletexplorer all tier1 false (some l) oracle).we_addresses_queried
        = ((min l (all.filter (fun a => (tier1 a).isNone)).length : ℕ) : ℤ)
  ∧ (tier2_walletexplorer all tier1 false (some l) oracle).we_addresses_total_unmatched
        = (((all.filter (fun a => (tier1 a).isNone)).length : ℕ) : ℤ)
  ∧ (tier2_walletexplorer all tier1 false none oracle).queried
        = all.filter (fun a => (tier1 a).isNone)
  ∧ (tier2_walletexplorer all tier1 false none oracle).warnings = []
  ∧ (tier2_walletexplorer all tier1 false none oracle).we_addresses_queried
        = (((all.filter (fun a => (tier1 a).isNone)).length : ℕ) : ℤ) := by
  simp [tier2_walletexplorer, List.length_take]

/-! Claim C8 — metrics of the empty graph. -/

/-- Graph result with no nodes, as built for an unresolvable target. -/
def emptyGraphExample : GraphResult := { root_input := "test", root_txid := "" }

/-- C8 (counterexample): on the empty graph the returned `avg_fan_in` is 1.0
and `max_fan_in` is 1 — the claim's "every count, ratio, and average equals
zero" fails for these two fields. -/
theorem c8_empty_counterexample :
    (compute_complexity emptyGraphExample).avg_fan_in = 1
  ∧ (compute_complexity emptyGraphExample).avg_fan_in ≠ 0
  ∧ (compute_complexity emptyGraphExample).max_fan_in = 1 := by
  refine ⟨rfl, by norm_num [compute_complexity, emptyGraphExample, empty_metrics], rfl⟩

/-- C8 (amended): for every graph with no nodes, `compute_complexity`
returns, without error, the record whose counts, rates and ratios are all
zero except for the dataclass defaults `avg_fan_in = 1.0` and
`max_fan_in = 1`. -/
theorem c8_empty_graph_metrics (g : GraphResult) (h : g.nodes = []) :
    compute_complexity g =
      { node_count := 0, edge_count := 0, unique_addresses := 0, max_depth := 0,
        avg_branch_factor := 0, max_branch_factor := 0, attribution_rate := 0,
        attributed_addresses := 0, total_addresses := 0, mixing_signals := 0,
        mixing_txids := [], coinjoin_detected := false, taproot_ratio := 0,
        unresolved_paths := 0, addresses_checked := 0, unattributed_addresses := 0,
        sources_exhausted := false, avg_fan_in := 1, max_fan_in := 1,
        root_pattern := none, root_pattern_detail := "", script_type_counts := [],
        total_value_sat := 0 } := by
  simp [compute_complexity, h, empty_metrics]

/-- C8 (witness): the amended statement at a concrete empty graph. -/
theorem c8_empty_graph_witness :
    (emptyGraphExample.nodes = [])
  ∧ (compute_complexity emptyGraphExample).node_count = 0
  ∧ (compute_complexity emptyGraphExample).avg_fan_in = 1 :=
  ⟨rfl,
   by rw [c8_empty_graph_metrics emptyGraphExample rfl],
   by rw [c8_empty_graph_metrics emptyGraphExample rfl]⟩

/-! Claim C5 — target resolution. -/

/-- Address shape as the claim words it: a prefix of 1, 3 or bc1 and a
total length of 26 to 62 characters. -/
def claimAddressShape (s : String) : Bool :=
  (match s.data with
   | '1' :: _ => true
   | '3' :: _ => true
   | 'b' :: 'c' :: '1' :: _ => true
   | _ => false)
    && 26 ≤ s.data.length && s.data.length ≤ 62

/-- A 63-character candidate: the character 1 followed by 62 letters. -/
def longAddr : String := ⟨'1' :: List.replicate 62 'a'⟩

/-- Oracle answering every address query with one recent transaction. -/
def oneTxApi : Esplora :=
  { fetchTx := fun _ => none, addrTxs := fun _ => ["ff00"] }

/-- C5 (counterexample): `longAddr` is 63 characters, so it matches neither
of the claim's two target shapes (not 64-hex, longer than 62), yet the
traversal resolves it as an address — the root txid comes back non-empty and
no warning is produced.  The regex bound is 25–62 characters after the
prefix, so totals run to 63 (prefixes 1/3) and 65 (prefix bc1), not 62. -/
theorem c5_resolution_counterexample :
    claimAddressShape longAddr = false
  ∧ txidMatch longAddr = false
  ∧ addressMatch longAddr = true
  ∧ (bfs_resolve oneTxApi longAddr).root_txid = "ff00"
  ∧ (bfs_resolve oneTxApi longAddr).warnings = [] := by
  refine ⟨by decide, by decide, by decide, ?_, ?_⟩ <;> rfl

/-- C5 (amended): resolution accepts exactly two target shapes — a
64-character hex string, validated by fetching it as a transaction, and a
Bitcoin address matching `^(1|3|bc1)[a-zA-Z0-9]{25,62}$` (so total length
26–63 for prefixes 1/3 and 28–65 for bc1), for which up to 25 recent txids
are fetched and the first is used as root; a target matching neither
pattern, or whose resolution fails, yields a graph with empty root txid and
a single warning. -/
theorem c5_target_resolution (api : Esplora) (target : String) :
    (txidMatch (pyStrip target) = true →
       resolve_target api target
         = if (api.fetchTx (pyStrip target)).isSome then some (pyStrip target) else none)
  ∧ (txidMatch (pyStrip target) = false → addressMatch (pyStrip target) = true →
       resolve_target api target = ((api.addrTxs (pyStrip target)).take 25).head?)
  ∧ (txidMatch (pyStrip target) = false → addressMatch (pyStrip target) = false →
       resolve_target api target = none)
  ∧ (resolve_target api target = none →
       (bfs_resolve api target).root_txid = ""
       ∧ (bfs_resolve api target).warnings.length = 1)
  ∧ (∀ r, resolve_target api target = some r →
       (bfs_resolve api target).root_txid = r
       ∧ (bfs_resolve api target).warnings = []) := by
  refine ⟨?_, ?_, ?_, ?_, ?_⟩
  · intro h1
    simp [resolve_target, h1]
  · intro h1 h2
    simp [resolve_target, fetch_address_txids, h1, h2]
  · intro h1 h2
    simp [resolve_target, h1, h2]
  · intro h
    simp [bfs_resolve, h]
  · intro r h
    simp [bfs_resolve, h]

/-- C5 (witness): a target matching neither pattern is rejected with an
empty root and one warning. -/
theorem c5_target_resolution_witness :
    (txidMatch (pyStrip "zz") = false ∧ addressMatch (pyStrip "zz") = false)
  ∧ resolve_target oneTxApi "zz" = none
  ∧ ((bfs_resolve oneTxApi "zz").root_txid = ""
     ∧ (bfs_resolve oneTxApi "zz").warnings.length = 1) :=
  ⟨⟨by decide, by decide⟩,
   (c5_target_resolution oneTxApi "zz").2.2.1 (by decide) (by decide),
   (c5_target_resolution oneTxApi "zz").2.2.2.1
     ((c5_target_resolution oneTxApi "zz").2.2.1 (by decide) (by decide))⟩

/-! Claim C2 — CoinJoin detection. -/

/-- Elements bound the fold-max. -/
theorem le_foldr_max (l : List ℕ) (x : ℕ) (hx : x ∈ l) : x ≤ l.foldr max 0 := by
  induction l with
  | nil => cases hx
  | cons a t ih =>
    rcases List.mem_cons.mp hx with rfl | hmem
    · exact le_max_left _ _
    · exact le_trans (ih hmem) (le_max_right _ _)

/-- The fold-max is zero or attained by an element. -/
theorem foldr_max_zero_or_mem (l : List ℕ) : l.foldr max 0 = 0 ∨ l.foldr max 0 ∈ l := by
  induction l with
  | nil => exact Or.inl rfl
  | cons a t ih =>
    rcases le_total a (t.foldr max 0) with hle | hle
    · rw [List.foldr_cons, max_eq_right hle]
      rcases ih with h0 | hm
      · exact Or.inl h0
      · exact Or.inr (List.mem_cons_of_mem a hm)
    · rw [List.foldr_cons, max_eq_left hle]
      exact Or.inr (List.mem_cons_self a t)

/-- The largest multiplicity dominates every value's multiplicity. -/
theorem count_le_mostCommonCount (vals : List ℤ) (v : ℤ) (hv : v ∈ vals) :
    vals.count v ≤ mostCommonCount vals :=
  le_foldr_max _ _ (List.mem_map_of_mem _ (List.mem_dedup.mpr hv))

/-- A positive largest multiplicity is some value's multiplicity. -/
theorem mostCommonCount_attained (vals : List ℤ) (h : mostCommonCount vals ≠ 0) :
    ∃ v ∈ vals, vals.count v = mostCommonCount vals := by
  rcases foldr_max_zero_or_mem (vals.dedup.map (fun v => vals.count v)) with h0 | hm
  · exact absurd h0 h
  · rcases List.mem_map.mp hm with ⟨v, hv, hcv⟩
    exact ⟨v, List.mem_dedup.mp hv, hcv⟩

/-- Check 2 of the detector, stated through the histogram maximum, agrees
with its spec reading "some (hence the most frequent) value occurs at least
five times and makes up more than half of the outputs". -/
theorem check2_iff (vals : List ℤ) (L : ℕ) (hL : 0 < L) :
    (5 ≤ mostCommonCount vals ∧ (1 : ℚ)/2 < (mostCommonCount vals : ℚ) / (L : ℚ))
    ↔ ∃ v, 5 ≤ vals.count v ∧ (1 : ℚ)/2 < (vals.count v : ℚ) / (L : ℚ) := by
  have hLQ : (0 : ℚ) < (L : ℚ) := by exact_mod_cast hL
  constructor
  · rintro ⟨h5, hr⟩
    obtain ⟨v, hv, hcv⟩ := mostCommonCount_attained vals (by omega)
    exact ⟨v, by rw [hcv]; exact h5, by rw [hcv]; exact hr⟩
  · rintro ⟨v, h5, hr⟩
    have hvmem : v ∈ vals := by
      have : 0 < vals.count v := by omega
      exact List.count_pos_iff.mp this
    have hle : vals.count v ≤ mostCommonCount vals := count_le_mostCommonCount vals v hvmem
    refine ⟨le_trans h5 hle, lt_of_lt_of_le hr ?_⟩
    exact (div_le_div_iff_of_pos_right hLQ).mpr (by exact_mod_cast hle)

/-- CoinJoin criterion as the claim words it: at least five outputs, and
over the histogram of positive output values either (a) a known
denomination occurs at least three times, or (b) the most frequent positive
value occurs at least five times and accounts for more than half of the
outputs, or (c) at least three distinct values each occur at least three
times. -/
def specCoinJoin (node : GraphNode) : Prop :=
  5 ≤ node.outputs.length ∧
  ((∃ v ∈ ALL_KNOWN_DENOMINATIONS, 3 ≤ (positiveValues node.outputs).count v)
   ∨ (∃ v, 5 ≤ (positiveValues node.outputs).count v
        ∧ (1 : ℚ)/2 < ((positiveValues node.outputs).count v : ℚ)
            / (node.outputs.length : ℚ))
   ∨ 3 ≤ ((positiveValues node.outputs).dedup.filter
        (fun v => 3 ≤ (positiveValues node.outputs).count v)).length)

/-- Check 1 of the detector agrees with its spec reading. -/
theorem check1_iff (vals : List ℤ) :
    (vals.dedup.any (fun v => 3 ≤ vals.count v && ALL_KNOWN_DENOMINATIONS.contains v) = true)
    ↔ ∃ v ∈ ALL_KNOWN_DENOMINATIONS, 3 ≤ vals.count v := by
  simp only [List.any_eq_true, List.mem_dedup, Bool.and_eq_true, decide_eq_true_eq,
    List.contains, List.elem_iff]
  constructor
  · rintro ⟨v, _, h3, hd⟩
    exact ⟨v, hd, h3⟩
  · rintro ⟨v, hd, h3⟩
    exact ⟨v, List.count_pos_iff.mp (by omega), h3, hd⟩

/-- C2: a node is flagged CoinJoin exactly under the claim's criterion (so
in particular a node with fewer than five outputs is never flagged, and
zero-value outputs are excluded from the histogram). -/
theorem c2_coinjoin_iff (node : GraphNode) :
    is_coinjoin node = true ↔ specCoinJoin node := by
  by_cases hlen : node.outputs.length < MIN_EQUAL_OUTPUTS_FOR_COINJOIN
  · simp only [is_coinjoin, if_pos hlen]
    simp only [MIN_EQUAL_OUTPUTS_FOR_COINJOIN] at hlen
    constructor
    · intro h; cases h
    · rintro ⟨h5, _⟩; omega
  · have h5L : 5 ≤ node.outputs.length := by
      simp only [MIN_EQUAL_OUTPUTS_FOR_COINJOIN] at hlen; omega
    have hLpos : 0 < node.outputs.length := by omega
    simp only [is_coinjoin, if_neg hlen]
    by_cases hemp : (positiveValues node.outputs).isEmpty
    · have hnil : positiveValues node.outputs = [] := by
        simpa [List.isEmpty_iff] using hemp
      rw [if_pos hemp]
      constructor
      · intro h; cases h
      · rintro ⟨-, hdisj⟩
        rcases hdisj with ⟨v, -, h3⟩ | ⟨v, h5, -⟩ | h3 <;> rw [hnil] at * <;>
          simp_all [List.count_nil]
    · rw [if_neg hemp]
      constructor
      · intro h
        refine ⟨h5L, ?_⟩
        split_ifs at h with hc1 hc2 hc3
        · exact Or.inl (check1_iff _ |>.mp hc1)
        · simp only [Bool.and_eq_true, decide_eq_true_eq] at hc2
          exact Or.inr (Or.inl ((check2_iff _ _ hLpos).mp
            ⟨by exact_mod_cast hc2.1, hc2.2⟩))
        · exact Or.inr (Or.inr (by exact_mod_cast hc3))
      · rintro ⟨-, hdisj⟩
        rcases hdisj with ha | hb | hc
        · rw [if_pos ((check1_iff _).mpr ha)]
        · by_cases hc1 : (positiveValues node.outputs).dedup.any
              (fun v => 3 ≤ (positiveValues node.outputs).count v
                && ALL_KNOWN_DENOMINATIONS.contains v) = true
          · rw [if_pos hc1]
          · rw [if_neg hc1, if_pos]
            have h2 := (check2_iff _ _ hLpos).mpr hb
            simp only [Bool.and_eq_true, decide_eq_true_eq]
            exact ⟨by exact_mod_cast h2.1, h2.2⟩
        · by_cases hc1 : (positiveValues node.outputs).dedup.any
              (fun v => 3 ≤ (positiveValues node.outputs).count v
                && ALL_KNOWN_DENOMINATIONS.contains v) = true
          · rw [if_pos hc1]
          · rw [if_neg hc1]
            by_cases hc2 : (MIN_EQUAL_OUTPUTS_FOR_COINJOIN
                  ≤ mostCommonCount (positiveValues node.outputs)
                && decide ((1 : ℚ)/2
                  < (mostCommonCount (positiveValues node.outputs) : ℚ)
                      / (node.outputs.length : ℚ))) = true
            · rw [if_pos hc2]
            · rw [if_neg hc2, if_pos (by exact_mod_cast hc)]

/-! Claim C10 — low estimates never exceed high estimates. -/

/-- The base schedule is positive. -/
theorem specBaseMinutes_pos (r : ℚ) : 0 < specBaseMinutes r := by
  unfold specBaseMinutes
  split_ifs <;> norm_num

/-- The spec hours-low is nonnegative when the multiplier inputs are. -/
theorem specHoursLow_nonneg (m : ComplexityMetrics)
    (hb : 0 ≤ m.avg_branch_factor) (hf : 0 ≤ m.avg_fan_in) :
    0 ≤ specHoursLow m := by
  unfold specHoursLow
  have h1 : (0 : ℚ) ≤ specBaseMinutes m.attribution_rate / 60 :=
    div_nonneg (specBaseMinutes_pos m.attribution_rate).le (by norm_num)
  have h2 : (0 : ℚ) ≤ ((max m.max_depth 1 : ℤ) : ℚ) := by
    have : (0 : ℤ) ≤ max m.max_depth 1 := le_trans (by norm_num) (le_max_right _ _)
    exact_mod_cast this
  have h3 : (0 : ℚ) ≤ (if m.coinjoin_detected then (3.5 : ℚ) else 1) := by
    split_ifs <;> norm_num
  have h4 : (0 : ℚ) ≤ (if m.avg_branch_factor > 5 then m.avg_branch_factor / 5 else 1) := by
    split_ifs <;> first | exact div_nonneg hb (by norm_num) | norm_num
  have h5 : (0 : ℚ) ≤ (if m.taproot_ratio > (0.5 : ℚ) then (1.4 : ℚ) else 1) := by
    split_ifs <;> norm_num
  have h6 : (0 : ℚ) ≤ (if m.avg_fan_in > 5 then m.avg_fan_in / 5 else 1) := by
    split_ifs <;> first | exact div_nonneg hf (by norm_num) | norm_num
  exact mul_nonneg (mul_nonneg h1 h2) (mul_nonneg (mul_nonneg (mul_nonneg h3 h4) h5) h6)

/-- The spec hours-low never exceeds the spec hours-high. -/
theorem specHours_le (m : ComplexityMetrics)
    (hu : 0 ≤ m.unresolved_paths) (hb : 0 ≤ m.avg_branch_factor)
    (hf : 0 ≤ m.avg_fan_in) :
    specHoursLow m ≤ specHoursHigh m := by
  have h0 := specHoursLow_nonneg m hb hf
  have huQ : (0 : ℚ) ≤ (m.unresolved_paths : ℚ) := by exact_mod_cast hu
  unfold specHoursHigh
  nlinarith [h0, huQ]

/-- C10: with nonnegative unresolved paths, attribution rate and multiplier
inputs, every tier returned by `compute_cost` has its low hours below its
high hours and its low total below its high total. -/
theorem c10_tier_bounds (m : ComplexityMetrics)
    (hu : 0 ≤ m.unresolved_paths) (ha : 0 ≤ m.attribution_rate)
    (hb : 0 ≤ m.avg_branch_factor) (ht : 0 ≤ m.taproot_ratio)
    (hf : 0 ≤ m.avg_fan_in) :
    ∀ t ∈ (compute_cost m).tiers,
      t.estimated_hours_low ≤ t.estimated_hours_high
      ∧ t.total_low ≤ t.total_high := by
  intro t htm
  by_cases hg : m.max_depth = 0 ∧ m.node_count ≤ 1
  · simp only [compute_cost, if_pos hg, TIERS, List.map, List.mem_cons,
      List.not_mem_nil, or_false] at htm
    rcases htm with rfl | rfl | rfl <;> exact ⟨le_refl _, le_refl _⟩
  · have hll := specHours_le m hu hb hf
    rw [(cost_tiers_spec m hg).2.2] at htm
    simp only [List.mem_cons, List.not_mem_nil, or_false] at htm
    rcases htm with rfl | rfl | rfl <;>
      exact ⟨round1_mono hll,
        round0_mono (mul_le_mul_of_nonneg_right hll (by norm_num))⟩

/-- C10 (witness): the bound at the short-circuit metrics, first tier. -/
theorem c10_tier_bounds_witness :
    (0 ≤ mShort.unresolved_paths ∧ 0 ≤ mShort.attribution_rate
     ∧ 0 ≤ mShort.avg_branch_factor ∧ 0 ≤ mShort.taproot_ratio
     ∧ 0 ≤ mShort.avg_fan_in)
  ∧ (((compute_cost mShort).tiers.getD 0 dummyTier).estimated_hours_low
       ≤ ((compute_cost mShort).tiers.getD 0 dummyTier).estimated_hours_high
     ∧ ((compute_cost mShort).tiers.getD 0 dummyTier).total_low
       ≤ ((compute_cost mShort).tiers.getD 0 dummyTier).total_high) :=
  ⟨⟨by norm_num [mShort], by norm_num [mShort], by norm_num [mShort],
    by norm_num [mShort], by norm_num [mShort]⟩,
   c10_tier_bounds mShort (by norm_num [mShort]) (by norm_num [mShort])
     (by norm_num [mShort]) (by norm_num [mShort]) (by norm_num [mShort]) _
     (by simp [compute_cost, mShort, TIERS])⟩

end DustLine
